import Mathlib

/-!
Shallow embedding of `telegram_bot.py` (ShadowStrike bot), restricted to the
top-up review workflow: the Admin Directory (`_load_admin_chat_id` /
`_save_admin_chat_id`), the Dedup Registry (`SEEN_TOPUPS`), the Notification
Dispatcher (`_notify_pending_topups`), the On-Demand Lister (`topups_cmd`)
and the Resolution Handler (`topup_callback`).

External collaborators are modelled as inputs: the HTTP fetch / resolve
outcomes are passed in as `Except String _` values (the `Exception` branch of
the Python `try` blocks corresponds to `.error`), and the standard-library
base64 decoder (`base64.b64decode`) is passed as a success predicate
`dec : String → Bool` (`dec payload = false` models the decoder raising, as
it does e.g. on the unpadded payload `"xyz"`).  Telegram send/edit/answer
calls are recorded as effect values.

The Python string primitives used by the bot (`lower`, `strip`, `upper`,
`split`, `startswith`, `in`) are implemented below by structural recursion
on the character list, so that every definition evaluates inside the kernel;
they agree with the Python originals on the ASCII data this bot handles.
-/

/-- Python `str.lower` (ASCII range, which covers every string the bot
compares). -/
def pyLower (s : String) : String := String.mk (s.data.map Char.toLower)

/-- Python `str.upper` (ASCII range). -/
def pyUpper (s : String) : String := String.mk (s.data.map Char.toUpper)

/-- Python `str.strip()`: drop leading and trailing whitespace. -/
def pyStrip (s : String) : String :=
  String.mk (((s.data.dropWhile Char.isWhitespace).reverse.dropWhile
    Char.isWhitespace).reverse)

/-- Python `(update.effective_user.username or "").lower().strip()`. -/
def pyNorm (u : Option String) : String := pyStrip (pyLower (u.getD ("")))

/-- Split a character list at every occurrence of `sep`
(Python `str.split(sep)` for a one-character separator). -/
def splitCharList (sep : Char) : List Char → List (List Char)
  | [] => [[]]
  | c :: rest =>
    if c = sep then [] :: splitCharList sep rest
    else
      match splitCharList sep rest with
      | [] => [[c]]
      | h :: t => (c :: h) :: t

/-- Python `s.split(sep)` for a one-character separator. -/
def pySplit (sep : Char) (s : String) : List String :=
  (splitCharList sep s.data).map String.mk

/-- Bool test that `pat` is an initial segment of the first list. -/
def listStarts : List Char → List Char → Bool
  | _, [] => true
  | [], _ :: _ => false
  | c :: cs, p :: ps => c = p && listStarts cs ps

/-- Python `s.startswith(pat)`. -/
def pyStarts (s pat : String) : Bool := listStarts s.data pat.data

/-- Python `c in s` for a one-character needle. -/
def pyHasChar (c : Char) (s : String) : Bool := s.data.contains c

/-- Everything after the first occurrence of `sep`
(Python `s.split(sep, 1)[1]`; only used when `sep` occurs). -/
def afterChar (sep : Char) : List Char → List Char
  | [] => []
  | c :: rest => if c = sep then rest else afterChar sep rest

/-- Python `receipt.split(",", 1)[1]`: the base64 payload of a data URI. -/
def afterFirstComma (s : String) : String := String.mk (afterChar ',' s.data)

/-- Configured reviewer handle, `BOT_ADMIN_USERNAME` in the source. -/
def BOT_ADMIN_USERNAME : String := "shtursunov7"

/-- Path of the admin-directory record, `ADMIN_STATE_PATH` in the source
(the source prefixes the script directory; the file name is what matters). -/
def ADMIN_STATE_PATH : String := "bot_admin_state.json"

/-- One pending top-up row, as consumed from the backend JSON
(`rows[{id,username,vales,priceUzs,packageLabel,createdAt,receiptImage}]`);
the source's `str(...)` / `int(... or 0)` coercions are reflected in the
field types. -/
structure Row where
  id : String
  username : String
  vales : Int
  priceUzs : Int
  packageLabel : String
  createdAt : Int
  receiptImage : String
deriving DecidableEq

/-- Decoded body of `/api/bot/topup/pending`. -/
structure PendingData where
  ok : Bool
  message : Option String
  rows : List Row
deriving DecidableEq

/-- The `request` object of a `/api/bot/topup/resolve` response. -/
structure ReqInfo where
  status : Option String
  username : Option String
  vales : Option Int
deriving DecidableEq

/-- Decoded body of `/api/bot/topup/resolve`. -/
structure ResolvePayload where
  ok : Bool
  message : Option String
  request : Option ReqInfo
deriving DecidableEq

/-- State of the admin-directory file: missing, unreadable/unparseable, or a
readable record whose `adminChatId` field is the given integer. -/
inductive AdminFileState where
  | absent
  | corrupt
  | record (adminChatId : Int)
deriving DecidableEq

/-- Embedding of `_load_admin_chat_id` (lines 98-107): a missing or
unreadable file yields `None`; otherwise `cid = int(data.get("adminChatId",
0) or 0)` is returned only when positive. -/
def load_admin_chat_id : AdminFileState → Option Int
  | AdminFileState.absent => none
  | AdminFileState.corrupt => none
  | AdminFileState.record cid => if cid > 0 then some cid else none

/-- Embedding of `_save_admin_chat_id` (lines 110-115) at the level of the
resulting file state: the record is overwritten with the given chat id. -/
def save_admin_chat_id (chatId : Int) (_s : AdminFileState) : AdminFileState :=
  AdminFileState.record chatId

/-- Primitive file operations, used to model the write path of
`_save_admin_chat_id` for the atomicity claim. -/
inductive FileOp where
  | openTruncate (path : String)
  | writeStr (path : String) (content : String)
  | closeFile (path : String)
  | renameFile (src : String) (dst : String)
deriving DecidableEq

/-- The exact bytes `json.dump({"adminChatId": int(chat_id)}, f)` writes. -/
def adminRecordJson (chatId : Int) : String :=
  "\x7b\"adminChatId\": " ++ toString chatId ++ "\x7d"

/-- The sequence of file operations `_save_admin_chat_id` performs:
`open(ADMIN_STATE_PATH, "w")` truncates the record in place, then the JSON
record is written and the file closed.  No temporary file, no rename. -/
def save_admin_chat_id_ops (chatId : Int) : List FileOp :=
  [FileOp.openTruncate ADMIN_STATE_PATH,
   FileOp.writeStr ADMIN_STATE_PATH (adminRecordJson chatId),
   FileOp.closeFile ADMIN_STATE_PATH]

/-- Effect of one file operation on the record file's content
(`none` = file absent). -/
def applyFileOp (content : Option String) : FileOp → Option String
  | FileOp.openTruncate _ => some ("")
  | FileOp.writeStr _ s => some ((content.getD ("")) ++ s)
  | FileOp.closeFile _ => content
  | FileOp.renameFile _ _ => content

/-- Every content of the record file a concurrent reader can observe while
the operations run, including the initial and final states. -/
def observableContents : List FileOp → Option String → List (Option String)
  | [], init => [init]
  | op :: rest, init => init :: observableContents rest (applyFileOp init op)

/-- True when the operation list installs the record by renaming some other
file over the record path (the write-to-temp-then-replace pattern). -/
def usesTempRename (ops : List FileOp) : Bool :=
  ops.any fun op =>
    match op with
    | FileOp.renameFile _ dst => dst = ADMIN_STATE_PATH
    | _ => false

/-- Python truthiness of `query.message and query.message.caption`:
true only when the original message exists and carries a non-empty caption.
The parameter is the caption when present. -/
def capTruthy : Option String → Bool
  | none => false
  | some s => !(s == "")

/-- Observable actions of one run of `topup_callback`. `ack` is the
unconditional `query.answer()`; `alert` is `query.answer(text,
show_alert=True)`; `resolveCall` records the JSON body fields of the POST to
`/api/bot/topup/resolve`; the two edits are `edit_message_caption` /
`edit_message_text`. -/
inductive CbEffect where
  | ack
  | alert (text : String)
  | resolveCall (actor : String) (requestId : String) (action : String) (reason : String)
  | editCaption (caption : String)
  | editText (text : String)
deriving DecidableEq

/-- True when the effect list contains an ephemeral alert. -/
def hasAlert (effs : List CbEffect) : Bool :=
  effs.any fun e =>
    match e with
    | CbEffect.alert _ => true
    | _ => false

/-- True when the effect list contains a call to the resolve endpoint. -/
def hasResolveCall (effs : List CbEffect) : Bool :=
  effs.any fun e =>
    match e with
    | CbEffect.resolveCall _ _ _ _ => true
    | _ => false

/-- True when the effect list edits the original notification message. -/
def hasEdit (effs : List CbEffect) : Bool :=
  effs.any fun e =>
    match e with
    | CbEffect.editCaption _ => true
    | CbEffect.editText _ => true
    | _ => false

/-- A callback token is well-formed when it has exactly three colon-separated
fields, the tag is `tp` and the action is `approve` or `reject`. -/
def tokenWellFormed (d : String) : Bool :=
  (pySplit ':' d).length == 3
    && (pySplit ':' d).getD 0 ("") == "tp"
    && ((pySplit ':' d).getD 1 ("") == "approve"
        || (pySplit ':' d).getD 1 ("") == "reject")

/-- Result line built on a successful resolve (line 458):
`text = f"Topup {status.upper()} | {uname} | +{vales} vales"`, with
`status = str(req.get("status", action))`, `uname = str(req.get("username",
""))` and `vales = int(req.get("vales", 0) or 0)`. -/
def resolveLine (action : String) (req : ReqInfo) : String :=
  "Topup " ++ pyUpper (req.status.getD action) ++ " | " ++ req.username.getD ("")
    ++ " | +" ++ toString (req.vales.getD 0) ++ " vales"

/-- Final edit on a successful resolve (lines 460-463): append the result
line to the photo caption when the original message carries one, otherwise
replace the message text with the result line alone. -/
def resolvedEdit (cap : Option String) (action : String) (req : ReqInfo) : CbEffect :=
  if capTruthy cap then
    CbEffect.editCaption ((cap.getD ("")) ++ "\n\n" ++ resolveLine action req)
  else CbEffect.editText (resolveLine action req)

/-- Embedding of `topup_callback` (lines 406-463).  `apiKey`, `username`,
`qdata` and `cap` are `BOT_API_KEY`, the caller's Telegram username, the
callback data and the original message's caption; `resolve` is the outcome
the resolve POST would produce if reached (`.error e` for a raised
exception with text `e`).  The source indexes `parts[0..2]` after checking
`len(parts) != 3`; that is rendered with `List.getD`. -/
def topup_callback (apiKey : String) (username : Option String)
    (qdata : Option String) (cap : Option String)
    (resolve : Except String ResolvePayload) : List CbEffect :=
  if apiKey = "" then
    if capTruthy cap then [CbEffect.ack, CbEffect.editCaption ("BOT_API_KEY sozlanmagan.")]
    else [CbEffect.ack, CbEffect.editText ("BOT_API_KEY sozlanmagan.")]
  else if pyNorm username ≠ BOT_ADMIN_USERNAME then
    [CbEffect.ack, CbEffect.alert ("Sizda ruxsat yo\x27q.")]
  else
    let parts := pySplit ':' (qdata.getD (""))
    if parts.length ≠ 3 ∨ parts.getD 0 ("") ≠ "tp" then [CbEffect.ack]
    else if ¬(parts.getD 1 ("") = "approve" ∨ parts.getD 1 ("") = "reject") then
      [CbEffect.ack]
    else
      match resolve with
      | Except.error e =>
        [CbEffect.ack,
         CbEffect.resolveCall (pyNorm username) (parts.getD 2 ("")) (parts.getD 1 (""))
           ("xato"),
         CbEffect.alert (("Server xatosi: ") ++ e)]
      | Except.ok payload =>
        if payload.ok = false then
          [CbEffect.ack,
           CbEffect.resolveCall (pyNorm username) (parts.getD 2 ("")) (parts.getD 1 (""))
             ("xato"),
           CbEffect.alert (payload.message.getD ("Xatolik"))]
        else
          [CbEffect.ack,
           CbEffect.resolveCall (pyNorm username) (parts.getD 2 ("")) (parts.getD 1 (""))
             ("xato"),
           resolvedEdit cap (parts.getD 1 ("")) (payload.request.getD ⟨none, none, none⟩)]

/-- Python `SEEN_TOPUPS.add(rid)`: set-insert on the seen list. -/
def insertSeen (rid : String) (seen : List String) : List String :=
  if rid ∈ seen then seen else rid :: seen

/-- The caption f-string both the Dispatcher (lines 378-386) and the Lister
(lines 317-325) build for a row. -/
def renderCaption (row : Row) : String :=
  "Topup request\nID: " ++ row.id ++ "\nUser: " ++ row.username ++ "\nPackage: "
    ++ row.packageLabel ++ "\nVales: " ++ toString row.vales ++ "\nUZS: "
    ++ toString row.priceUzs ++ "\nCreatedAt: " ++ toString row.createdAt

/-- The inline keyboard attached to a row's notification: button label and
callback token for approve and reject (lines 326-331 / 387-392). -/
def topupKeyboard (rid : String) : List (String × String) :=
  [("To\x27g\x27ri", "tp:approve:" ++ rid), ("Xato", "tp:reject:" ++ rid)]

/-- A message the Dispatcher pushes to the stored admin chat:
`context.bot.send_photo` or `context.bot.send_message`. -/
inductive NotifyEffect where
  | sendPhoto (chatId : Int) (caption : String) (keyboard : List (String × String))
  | sendMessage (chatId : Int) (text : String) (keyboard : List (String × String))
deriving DecidableEq

/-- What the Dispatcher's per-row `try` block (lines 393-403) delivers for
one row: a photo when the receipt is a data-image URI whose base64 payload
decodes, a text message when the receipt is not a data-image URI, and
nothing at all (`except: continue`) when the payload fails to decode. -/
def rowNotify (c : Int) (dec : String → Bool) (row : Row) : Option NotifyEffect :=
  if pyStarts row.receiptImage ("data:image/") && pyHasChar ',' row.receiptImage then
    if dec (afterFirstComma row.receiptImage) then
      some (NotifyEffect.sendPhoto c (renderCaption row) (topupKeyboard row.id))
    else none
  else some (NotifyEffect.sendMessage c (renderCaption row) (topupKeyboard row.id))

/-- The Dispatcher's row loop (lines 367-403): skip empty or already-seen
ids, otherwise mark seen first and then attempt delivery; returns the sent
effects and the final seen set. -/
def notifyRows (c : Int) (dec : String → Bool) :
    List Row → List String → List NotifyEffect × List String
  | [], seen => ([], seen)
  | row :: rest, seen =>
    if row.id = "" ∨ row.id ∈ seen then notifyRows c dec rest seen
    else
      ((rowNotify c dec row).toList
         ++ (notifyRows c dec rest (insertSeen row.id seen)).1,
       (notifyRows c dec rest (insertSeen row.id seen)).2)

/-- Embedding of `_notify_pending_topups` (lines 345-403): no-op when the
API key is missing, the admin chat is unknown, the fetch raises, or the
response has `ok` false; otherwise process the rows. -/
def notify_pending_topups (apiKey : String) (file : AdminFileState)
    (fetch : Except String PendingData) (dec : String → Bool) (seen : List String) :
    List NotifyEffect × List String :=
  if apiKey = "" then ([], seen)
  else
    match load_admin_chat_id file with
    | none => ([], seen)
    | some chatId =>
      match fetch with
      | Except.error _ => ([], seen)
      | Except.ok data =>
        if data.ok = false then ([], seen)
        else notifyRows chatId dec data.rows seen

/-- A reply the On-Demand Lister sends in the requesting conversation
(`reply_photo` / `reply_text`; plain error replies carry no keyboard). -/
inductive ListerEffect where
  | replyPhoto (caption : String) (keyboard : List (String × String))
  | replyText (text : String) (keyboard : Option (List (String × String)))
deriving DecidableEq

/-- What the Lister's per-row `try` block (lines 333-342) delivers: a photo
for a decodable data-image receipt, and the text fallback both for non-image
receipts and for receipts whose payload fails to decode (`except:
reply_text`). -/
def rowEffect (dec : String → Bool) (row : Row) : ListerEffect :=
  if pyStarts row.receiptImage ("data:image/") && pyHasChar ',' row.receiptImage then
    if dec (afterFirstComma row.receiptImage) then
      ListerEffect.replyPhoto (renderCaption row) (topupKeyboard row.id)
    else ListerEffect.replyText (renderCaption row) (some (topupKeyboard row.id))
  else ListerEffect.replyText (renderCaption row) (some (topupKeyboard row.id))

/-- The Lister's row loop (lines 308-342): every row is rendered (no seen
filter) and its id is added to the seen set first. -/
def listRows (dec : String → Bool) :
    List Row → List String → List ListerEffect × List String
  | [], seen => ([], seen)
  | row :: rest, seen =>
    (rowEffect dec row :: (listRows dec rest (insertSeen row.id seen)).1,
     (listRows dec rest (insertSeen row.id seen)).2)

/-- Embedding of `topups_cmd` (lines 278-342): key and identity checks,
fetch errors, the empty-queue reply, then the row loop. -/
def topups_cmd (apiKey : String) (username : Option String)
    (fetch : Except String PendingData) (dec : String → Bool) (seen : List String) :
    List ListerEffect × List String :=
  if apiKey = "" then
    ([ListerEffect.replyText ("BOT_API_KEY sozlanmagan.") none], seen)
  else if pyNorm username ≠ BOT_ADMIN_USERNAME then
    ([ListerEffect.replyText ("Sizda ruxsat yo\x27q.") none], seen)
  else
    match fetch with
    | Except.error e =>
      ([ListerEffect.replyText (("Server xatosi: ") ++ e) none], seen)
    | Except.ok data =>
      if data.ok = false then
        ([ListerEffect.replyText (("Xatolik: ") ++ data.message.getD ("unknown"))
            none], seen)
      else if data.rows.length = 0 then
        ([ListerEffect.replyText ("Pending chek yo\x27q.") none], seen)
      else listRows dec data.rows seen

/-- The inline keyboard a dispatcher effect carries; it determines the row
id the effect was rendered for. -/
def effCallbacks : NotifyEffect → List (String × String)
  | NotifyEffect.sendPhoto _ _ kb => kb
  | NotifyEffect.sendMessage _ _ kb => kb

/-- Number of dispatcher effects rendered for the request id `rid`. -/
def countFor (rid : String) (effs : List NotifyEffect) : Nat :=
  (effs.filter fun e => effCallbacks e == topupKeyboard rid).length

/-- A whole process lifetime of dispatcher ticks: each tick reads the admin
file and fetch outcome for that tick and threads the seen set through. -/
def runTicks (k : String) (dec : String → Bool) :
    List (AdminFileState × Except String PendingData) → List String →
    List NotifyEffect × List String
  | [], seen => ([], seen)
  | tick :: ticks, seen =>
    ((notify_pending_topups k tick.1 tick.2 dec seen).1
       ++ (runTicks k dec ticks (notify_pending_topups k tick.1 tick.2 dec seen).2).1,
     (runTicks k dec ticks (notify_pending_topups k tick.1 tick.2 dec seen).2).2)

/-- Claim C8 counterexample: saving the chat id `-1` and reading it back
yields `absent`, not `-1`, because `_load_admin_chat_id` filters out
non-positive ids (`return cid if cid > 0 else None`). -/
theorem admin_roundtrip_nonpositive :
    load_admin_chat_id (save_admin_chat_id (-1) AdminFileState.absent) = none
      ∧ (none : Option Int) ≠ some (-1) := by
  constructor
  · rfl
  · decide

/-- Claim C8 (amended): the Admin Directory round-trip holds for every
positive chat id; a non-positive saved id is read back as absent, and a
missing or unreadable record reads as absent. -/
theorem admin_roundtrip (c : Int) (s : AdminFileState) :
    (0 < c → load_admin_chat_id (save_admin_chat_id c s) = some c)
      ∧ (c ≤ 0 → load_admin_chat_id (save_admin_chat_id c s) = none)
      ∧ load_admin_chat_id AdminFileState.absent = none
      ∧ load_admin_chat_id AdminFileState.corrupt = none := by
  refine ⟨fun h => ?_, fun h => ?_, rfl, rfl⟩
  · simp [load_admin_chat_id, save_admin_chat_id, h]
  · simp [load_admin_chat_id, save_admin_chat_id]
    omega

/-- Claim C8 witness: round-trip at chat id 7, and absence at chat id -2. -/
theorem admin_roundtrip_witness :
    load_admin_chat_id (save_admin_chat_id 7 AdminFileState.absent) = some 7
      ∧ load_admin_chat_id (save_admin_chat_id (-2) AdminFileState.absent) = none :=
  ⟨(admin_roundtrip 7 AdminFileState.absent).1 (by decide),
   (admin_roundtrip (-2) AdminFileState.absent).2.1 (by decide)⟩

/-- Claim C9 counterexample: the save of chat id 5 performs no rename onto
the record path, and a reader interleaved between the truncating open and
the write observes an empty record — not the old record and not the new
one — so the write is not atomic-replace. -/
theorem save_admin_not_atomic :
    usesTempRename (save_admin_chat_id_ops 5) = false
      ∧ observableContents (save_admin_chat_id_ops 5) (some (adminRecordJson 3)) =
          [some (adminRecordJson 3), some (""), some (adminRecordJson 5),
           some (adminRecordJson 5)]
      ∧ some ("") ≠ some (adminRecordJson 5)
      ∧ some ("") ≠ some (adminRecordJson 3) := by
  refine ⟨rfl, rfl, ?_, ?_⟩ <;> decide

/-- Claim C9 (amended): `_save_admin_chat_id` writes the record in place —
a truncating open of the record path followed by the write, with no
temporary file and no rename — so a reader interleaved between the truncate
and the write observes an empty (unparseable) record. -/
theorem save_admin_in_place (c : Int) (prev : String) :
    usesTempRename (save_admin_chat_id_ops c) = false
      ∧ observableContents (save_admin_chat_id_ops c) (some prev) =
          [some prev, some (""), some (adminRecordJson c), some (adminRecordJson c)]
      ∧ adminRecordJson c ≠ "" := by
  refine ⟨rfl, by simp [observableContents, save_admin_chat_id_ops, applyFileOp], ?_⟩
  intro h
  have hlen := congrArg String.length h
  simp [adminRecordJson, String.length_append] at hlen
  exact absurd hlen.1.1 (by decide)

/-- Claim C2 counterexample: with no API key configured, a resolution
callback from the reviewer ends in the denied state but the caller is NOT
shown an ephemeral alert — the original message is edited to a
configuration-error text instead. -/
theorem callback_missing_key_no_alert :
    topup_callback ("") (some ("shtursunov7")) (some ("tp:approve:r1")) none
        (Except.error (""))
      = [CbEffect.ack, CbEffect.editText ("BOT_API_KEY sozlanmagan.")]
      ∧ hasAlert (topup_callback ("") (some ("shtursunov7")) (some ("tp:approve:r1"))
          none (Except.error (""))) = false
      ∧ hasEdit (topup_callback ("") (some ("shtursunov7")) (some ("tp:approve:r1"))
          none (Except.error (""))) = true := by
  refine ⟨rfl, rfl, rfl⟩

/-- Claim C2 (amended): when the caller is not the reviewer or no API key is
configured, `topup_callback` never calls the resolve endpoint; a
non-reviewer with a configured key is shown the ephemeral permission alert,
while a missing API key makes the handler edit the original message (caption
when present, text otherwise) to a configuration-error message instead of
alerting. -/
theorem callback_denied_no_resolve (k : String) (u : Option String)
    (qd cap : Option String) (resolve : Except String ResolvePayload)
    (h : k = "" ∨ pyNorm u ≠ BOT_ADMIN_USERNAME) :
    hasResolveCall (topup_callback k u qd cap resolve) = false
      ∧ (k ≠ "" → pyNorm u ≠ BOT_ADMIN_USERNAME →
          topup_callback k u qd cap resolve
            = [CbEffect.ack, CbEffect.alert ("Sizda ruxsat yo\x27q.")])
      ∧ (k = "" → capTruthy cap = false →
          topup_callback k u qd cap resolve
            = [CbEffect.ack, CbEffect.editText ("BOT_API_KEY sozlanmagan.")])
      ∧ (k = "" → capTruthy cap = true →
          topup_callback k u qd cap resolve
            = [CbEffect.ack, CbEffect.editCaption ("BOT_API_KEY sozlanmagan.")]) := by
  refine ⟨?_, ?_, ?_, ?_⟩
  · by_cases hk : k = ""
    · subst hk
      by_cases hc : capTruthy cap <;> simp [topup_callback, hc, hasResolveCall]
    · rcases h with h | h
      · exact absurd h hk
      · simp [topup_callback, hk, h, hasResolveCall]
  · intro hk hu
    simp [topup_callback, hk, hu]
  · intro hk hc
    subst hk
    simp [topup_callback, hc]
  · intro hk hc
    subst hk
    simp [topup_callback, hc]

/-- Claim C2 witness: a non-reviewer caller with a configured key issues no
resolve call and receives the permission alert. -/
theorem callback_denied_no_resolve_witness :
    hasResolveCall (topup_callback ("k") (some ("mallory")) (some ("tp:approve:r1"))
        none (Except.error (""))) = false
      ∧ topup_callback ("k") (some ("mallory")) (some ("tp:approve:r1")) none
          (Except.error (""))
        = [CbEffect.ack, CbEffect.alert ("Sizda ruxsat yo\x27q.")] := by
  have h := callback_denied_no_resolve ("k") (some ("mallory"))
    (some ("tp:approve:r1")) none (Except.error ("")) (Or.inr (by decide))
  exact ⟨h.1, h.2.1 (by decide) (by decide)⟩

/-- Claim C3 counterexample: a malformed token (four colon-separated fields)
sent by a non-reviewer does produce a reply — the authorization check runs
before the token parse, so the caller gets the ephemeral permission alert,
refuting the unconditional no-state-change-and-no-reply claim. -/
theorem malformed_token_nonreviewer_alert :
    tokenWellFormed ("tp:approve:a:b") = false
      ∧ topup_callback ("k") (some ("mallory")) (some ("tp:approve:a:b")) none
          (Except.error (""))
        = [CbEffect.ack, CbEffect.alert ("Sizda ruxsat yo\x27q.")]
      ∧ hasAlert (topup_callback ("k") (some ("mallory")) (some ("tp:approve:a:b"))
          none (Except.error (""))) = true := by
  refine ⟨by decide, by decide, by decide⟩

/-- Claim C3 (amended): for a resolution callback from the configured
reviewer with an API key configured, a malformed token — wrong arity, tag
other than `tp`, or action outside approve/reject — is silently ignored:
no resolve call, no edit, no alert, only the unconditional callback
acknowledgement; callers failing the earlier configuration or authorization
checks receive those branches' responses first. -/
theorem malformed_token_ignored (k : String) (u : Option String) (d : String)
    (cap : Option String) (resolve : Except String ResolvePayload)
    (hk : k ≠ "") (hu : pyNorm u = BOT_ADMIN_USERNAME)
    (hd : tokenWellFormed d = false) :
    topup_callback k u (some d) cap resolve = [CbEffect.ack] := by
  simp only [topup_callback, if_neg hk, if_neg (not_not_intro hu), Option.getD_some]
  by_cases h3 : (pySplit ':' d).length = 3
  · by_cases ht : (pySplit ':' d).getD 0 ("") = "tp"
    · have hact : ¬((pySplit ':' d).getD 1 ("") = "approve"
          ∨ (pySplit ':' d).getD 1 ("") = "reject") := by
        intro hor
        have htrue : tokenWellFormed d = true := by
          unfold tokenWellFormed
          rw [h3, ht]
          rcases hor with h1 | h1 <;> rw [h1] <;> rfl
        rw [htrue] at hd
        simp at hd
      rw [if_neg (by
        rw [List.getD_eq_getElem _ _ (by omega)] at ht
        simp [h3, ht]), if_pos hact]
    · rw [if_pos (Or.inr ht)]
  · rw [if_pos (Or.inl h3)]

/-- Claim C3 witness: a three-field token with an unknown action, sent by
the reviewer with a key configured, yields only the acknowledgement. -/
theorem malformed_token_ignored_witness :
    topup_callback ("k") (some ("shtursunov7")) (some ("tp:oops:r1")) none
        (Except.error ("")) = [CbEffect.ack] :=
  malformed_token_ignored ("k") (some ("shtursunov7")) ("tp:oops:r1") none
    (Except.error ("")) (by decide) (by decide) (by decide)

/-- Claim C5 counterexample: approving request `r1` with backend reply
`ok=true, request={status:"approved", username:"bob", vales:100}` edits the
message to `"Topup APPROVED | bob | +100 vales"` — the result line carries a
`"Topup "` prefix, so it is not the claimed `"APPROVED | bob | +100 vales"`,
which never appears as the edited text. -/
theorem resolve_edit_line_prefix :
    topup_callback ("k") (some ("shtursunov7")) (some ("tp:approve:r1")) none
        (Except.ok ⟨true, none, some ⟨some ("approved"), some ("bob"), some 100⟩⟩)
      = [CbEffect.ack, CbEffect.resolveCall ("shtursunov7") ("r1") ("approve") ("xato"),
         CbEffect.editText ("Topup APPROVED | bob | +100 vales")]
      ∧ ("Topup APPROVED | bob | +100 vales") ≠ ("APPROVED | bob | +100 vales")
      ∧ CbEffect.editText ("APPROVED | bob | +100 vales")
          ∉ topup_callback ("k") (some ("shtursunov7")) (some ("tp:approve:r1")) none
              (Except.ok ⟨true, none, some ⟨some ("approved"), some ("bob"),
                some 100⟩⟩) := by
  refine ⟨by decide, by decide, by decide⟩

/-- Claim C5 (amended): on an authorized callback whose resolve reply is
`ok=true` with request fields status `s`, username `un`, vales `v`, the
handler edits the original notification with the result line
`"Topup " ++ uppercased s ++ " | " ++ un ++ " | +" ++ v ++ " vales"`:
appended (after a blank line) to the photo caption when the original carried
one, otherwise replacing the message text. -/
theorem resolve_success_edit (k : String) (u : Option String) (d : String)
    (cap : Option String) (act rid s un : String) (v : Int) (m : Option String)
    (hk : k ≠ "") (hu : pyNorm u = BOT_ADMIN_USERNAME)
    (hd : pySplit ':' d = ["tp", act, rid])
    (ha : act = "approve" ∨ act = "reject") :
    (capTruthy cap = false →
      topup_callback k u (some d) cap
          (Except.ok ⟨true, m, some ⟨some s, some un, some v⟩⟩)
        = [CbEffect.ack, CbEffect.resolveCall (pyNorm u) rid act ("xato"),
           CbEffect.editText ("Topup " ++ pyUpper s ++ " | " ++ un ++ " | +"
             ++ toString v ++ " vales")])
    ∧ (∀ c0 : String, cap = some c0 → capTruthy cap = true →
      topup_callback k u (some d) cap
          (Except.ok ⟨true, m, some ⟨some s, some un, some v⟩⟩)
        = [CbEffect.ack, CbEffect.resolveCall (pyNorm u) rid act ("xato"),
           CbEffect.editCaption (c0 ++ "\n\n" ++ ("Topup " ++ pyUpper s ++ " | "
             ++ un ++ " | +" ++ toString v ++ " vales"))]) := by
  have hbase : topup_callback k u (some d) cap
      (Except.ok ⟨true, m, some ⟨some s, some un, some v⟩⟩)
    = [CbEffect.ack, CbEffect.resolveCall (pyNorm u) rid act ("xato"),
       resolvedEdit cap act ⟨some s, some un, some v⟩] := by
    simp only [topup_callback, if_neg hk, if_neg (not_not_intro hu),
      Option.getD_some, hd]
    rw [if_neg (by simp), if_neg (not_not_intro (by simpa using ha))]
    simp
  constructor
  · intro hc
    rw [hbase]
    simp [resolvedEdit, hc, resolveLine]
  · intro c0 hc0 hc
    rw [hbase]
    subst hc0
    simp [resolvedEdit, hc, resolveLine]

/-- Claim C5 witness: concrete reject of request `r9` with no caption. -/
theorem resolve_success_edit_witness :
    topup_callback ("k") (some ("shtursunov7")) (some ("tp:reject:r9")) none
        (Except.ok ⟨true, none, some ⟨some ("rejected"), some ("alice"), some 5⟩⟩)
      = [CbEffect.ack,
         CbEffect.resolveCall (pyNorm (some ("shtursunov7"))) ("r9") ("reject") ("xato"),
         CbEffect.editText ("Topup " ++ pyUpper ("rejected") ++ " | " ++ ("alice")
           ++ " | +" ++ toString (5 : Int) ++ " vales")] :=
  (resolve_success_edit ("k") (some ("shtursunov7")) ("tp:reject:r9") none
    ("reject") ("r9") ("rejected") ("alice") 5 none (by decide) (by decide)
    (by decide) (Or.inr rfl)).1 rfl

/-- Claim C6: on an authorized callback with a valid token, a business
failure (`ok=false` with message `msg`) alerts the reviewer with exactly
`msg` and leaves the original message unedited, and a transport or decoding
failure with exception text `e` alerts with `"Server xatosi: " ++ e` and
likewise leaves the message unedited. -/
theorem resolve_failure_alert (k : String) (u : Option String) (d : String)
    (cap : Option String) (act rid msg e : String) (rq : Option ReqInfo)
    (hk : k ≠ "") (hu : pyNorm u = BOT_ADMIN_USERNAME)
    (hd : pySplit ':' d = ["tp", act, rid])
    (ha : act = "approve" ∨ act = "reject") :
    (topup_callback k u (some d) cap (Except.ok ⟨false, some msg, rq⟩)
        = [CbEffect.ack, CbEffect.resolveCall (pyNorm u) rid act ("xato"),
           CbEffect.alert msg]
      ∧ hasEdit (topup_callback k u (some d) cap (Except.ok ⟨false, some msg, rq⟩))
          = false)
    ∧ (topup_callback k u (some d) cap (Except.error e)
        = [CbEffect.ack, CbEffect.resolveCall (pyNorm u) rid act ("xato"),
           CbEffect.alert (("Server xatosi: ") ++ e)]
      ∧ hasEdit (topup_callback k u (some d) cap (Except.error e)) = false) := by
  have hbiz : topup_callback k u (some d) cap (Except.ok ⟨false, some msg, rq⟩)
      = [CbEffect.ack, CbEffect.resolveCall (pyNorm u) rid act ("xato"),
         CbEffect.alert msg] := by
    simp only [topup_callback, if_neg hk, if_neg (not_not_intro hu),
      Option.getD_some, hd]
    rw [if_neg (by simp), if_neg (not_not_intro (by simpa using ha))]
    simp
  have htr : topup_callback k u (some d) cap (Except.error e)
      = [CbEffect.ack, CbEffect.resolveCall (pyNorm u) rid act ("xato"),
         CbEffect.alert (("Server xatosi: ") ++ e)] := by
    simp only [topup_callback, if_neg hk, if_neg (not_not_intro hu),
      Option.getD_some, hd]
    rw [if_neg (by simp), if_neg (not_not_intro (by simpa using ha))]
    simp
  refine ⟨⟨hbiz, ?_⟩, htr, ?_⟩
  · rw [hbiz]
    rfl
  · rw [htr]
    rfl

/-- Claim C6 witness: a backend reply `ok=false, message="already resolved"`
on an approve of `r1` alerts with exactly that text and edits nothing. -/
theorem resolve_failure_alert_witness :
    topup_callback ("k") (some ("shtursunov7")) (some ("tp:approve:r1")) none
        (Except.ok ⟨false, some ("already resolved"), none⟩)
      = [CbEffect.ack,
         CbEffect.resolveCall (pyNorm (some ("shtursunov7"))) ("r1") ("approve") ("xato"),
         CbEffect.alert ("already resolved")]
      ∧ hasEdit (topup_callback ("k") (some ("shtursunov7")) (some ("tp:approve:r1"))
          none (Except.ok ⟨false, some ("already resolved"), none⟩)) = false :=
  (resolve_failure_alert ("k") (some ("shtursunov7")) ("tp:approve:r1") none
    ("approve") ("r1") ("already resolved") ("") none (by decide) (by decide)
    (by decide) (Or.inl rfl)).1

/-- Claim C10: every resolve call the handler issues carries the constant
reason `"xato"`, for approve and reject alike — the reason never depends on
the action, the caller or the callback data. -/
theorem resolve_reason_constant (k : String) (u : Option String)
    (qd cap : Option String) (resolve : Except String ResolvePayload)
    (a r act rsn : String)
    (h : CbEffect.resolveCall a r act rsn ∈ topup_callback k u qd cap resolve) :
    rsn = "xato" := by
  simp only [topup_callback, resolvedEdit] at h
  repeat' split at h
  all_goals simp_all

/-- Claim C10 witness: a concrete approve emits a resolve call whose reason
field is `"xato"`. -/
theorem resolve_reason_constant_witness :
    CbEffect.resolveCall ("shtursunov7") ("r1") ("approve") ("xato")
        ∈ topup_callback ("k") (some ("shtursunov7")) (some ("tp:approve:r1")) none
            (Except.error ("boom"))
      ∧ ("xato" : String) = "xato" :=
  ⟨by decide,
   resolve_reason_constant ("k") (some ("shtursunov7")) (some ("tp:approve:r1")) none
     (Except.error ("boom")) ("shtursunov7") ("r1") ("approve") ("xato") (by decide)⟩

/-- Inserting keeps the inserted id a member. -/
theorem mem_insertSeen_self (rid : String) (seen : List String) :
    rid ∈ insertSeen rid seen := by
  by_cases h : rid ∈ seen <;> simp [insertSeen, h]

/-- Inserting preserves existing members. -/
theorem mem_insertSeen_of_mem {a rid : String} {seen : List String}
    (h : a ∈ seen) : a ∈ insertSeen rid seen := by
  by_cases hm : rid ∈ seen <;> simp [insertSeen, hm, h]

/-- The dispatcher row loop never removes ids from the seen set. -/
theorem notifyRows_seen_subset (c : Int) (dec : String → Bool) (rows : List Row) :
    ∀ (seen : List String) (a : String), a ∈ seen →
      a ∈ (notifyRows c dec rows seen).2 := by
  induction rows with
  | nil => intro seen a ha; simpa [notifyRows] using ha
  | cons row rest ih =>
    intro seen a ha
    by_cases hskip : row.id = "" ∨ row.id ∈ seen
    · simpa [notifyRows, if_pos hskip] using ih seen a ha
    · simpa [notifyRows, if_neg hskip] using
        ih (insertSeen row.id seen) a (mem_insertSeen_of_mem ha)

/-- After the dispatcher row loop, every row id is empty or in the final
seen set. -/
theorem notifyRows_covers (c : Int) (dec : String → Bool) (rows : List Row) :
    ∀ (seen : List String) (row : Row), row ∈ rows →
      row.id = "" ∨ row.id ∈ (notifyRows c dec rows seen).2 := by
  induction rows with
  | nil => intro seen row h; cases h
  | cons hd rest ih =>
    intro seen row h
    rcases List.mem_cons.mp h with h | h
    · subst h
      by_cases hskip : row.id = "" ∨ row.id ∈ seen
      · rcases hskip with h0 | hmem
        · exact Or.inl h0
        · exact Or.inr (by
            simpa [notifyRows, if_pos (Or.inr hmem)] using
              notifyRows_seen_subset c dec rest seen row.id hmem)
      · exact Or.inr (by
          simpa [notifyRows, if_neg hskip] using
            notifyRows_seen_subset c dec rest (insertSeen row.id seen) row.id
              (mem_insertSeen_self row.id seen))
    · by_cases hskip : hd.id = "" ∨ hd.id ∈ seen
      · simpa [notifyRows, if_pos hskip] using ih seen row h
      · simpa [notifyRows, if_neg hskip] using ih (insertSeen hd.id seen) row h

/-- When every row id is empty or already seen, the dispatcher row loop
sends nothing and leaves the seen set unchanged. -/
theorem notifyRows_all_seen (c : Int) (dec : String → Bool) (rows : List Row) :
    ∀ (seen : List String), (∀ row ∈ rows, row.id = "" ∨ row.id ∈ seen) →
      notifyRows c dec rows seen = ([], seen) := by
  induction rows with
  | nil => intro seen _; rfl
  | cons hd rest ih =>
    intro seen hall
    have hhd : hd.id = "" ∨ hd.id ∈ seen := hall hd (List.mem_cons_self hd rest)
    rw [notifyRows, if_pos hhd]
    exact ih seen fun row hr => hall row (List.mem_cons_of_mem hd hr)

/-- Two rows get the same inline keyboard only for the same request id. -/
theorem topupKeyboard_inj {a b : String} (h : topupKeyboard a = topupKeyboard b) :
    a = b := by
  simp only [topupKeyboard, List.cons.injEq, Prod.mk.injEq] at h
  have h1 : ("tp:approve:" ++ a).data = ("tp:approve:" ++ b).data :=
    congrArg String.data h.1.2
  rw [String.data_append, String.data_append] at h1
  exact String.ext (List.append_cancel_left h1)

/-- Counting distributes over concatenated effect lists. -/
theorem countFor_append (rid : String) (l1 l2 : List NotifyEffect) :
    countFor rid (l1 ++ l2) = countFor rid l1 + countFor rid l2 := by
  simp [countFor, List.filter_append]

/-- A row with a different id contributes no effect counted for `rid`. -/
theorem countFor_rowNotify_ne {rid : String} (c : Int) (dec : String → Bool)
    (row : Row) (h : row.id ≠ rid) :
    countFor rid (rowNotify c dec row).toList = 0 := by
  have hkb : (topupKeyboard row.id == topupKeyboard rid) = false := by
    rw [beq_eq_false_iff_ne]
    intro hh
    exact h (topupKeyboard_inj hh)
  unfold rowNotify
  split
  · split <;> simp [countFor, effCallbacks, hkb]
  · simp [countFor, effCallbacks, hkb]

/-- One row contributes at most one counted effect. -/
theorem countFor_rowNotify_le (rid : String) (c : Int) (dec : String → Bool)
    (row : Row) : countFor rid (rowNotify c dec row).toList ≤ 1 := by
  refine le_trans (List.length_filter_le _ _) ?_
  cases rowNotify c dec row <;> simp

/-- If `rid` is already seen, the dispatcher row loop emits nothing for it. -/
theorem notifyRows_countFor_of_mem (c : Int) (dec : String → Bool)
    (rows : List Row) :
    ∀ (seen : List String) (rid : String), rid ∈ seen →
      countFor rid (notifyRows c dec rows seen).1 = 0 := by
  induction rows with
  | nil => intro seen rid _; rfl
  | cons hd rest ih =>
    intro seen rid hrid
    by_cases hskip : hd.id = "" ∨ hd.id ∈ seen
    · rw [notifyRows, if_pos hskip]
      exact ih seen rid hrid
    · have hne : hd.id ≠ rid := by
        intro hh
        exact hskip (Or.inr (hh ▸ hrid))
      rw [notifyRows, if_neg hskip]
      simp only [countFor_append]
      rw [countFor_rowNotify_ne c dec hd hne,
        ih (insertSeen hd.id seen) rid (mem_insertSeen_of_mem hrid)]

/-- Within one tick's row loop, `rid` is rendered at most once, and when it
is rendered at all it ends up in the final seen set. -/
theorem notifyRows_countFor_le_one (c : Int) (dec : String → Bool)
    (rows : List Row) :
    ∀ (seen : List String) (rid : String),
      countFor rid (notifyRows c dec rows seen).1 ≤ 1
        ∧ (1 ≤ countFor rid (notifyRows c dec rows seen).1 →
            rid ∈ (notifyRows c dec rows seen).2) := by
  induction rows with
  | nil =>
    intro seen rid
    exact ⟨by simp [notifyRows, countFor], fun h => by simp [notifyRows, countFor] at h⟩
  | cons hd rest ih =>
    intro seen rid
    by_cases hskip : hd.id = "" ∨ hd.id ∈ seen
    · rw [notifyRows, if_pos hskip]
      exact ih seen rid
    · rw [notifyRows, if_neg hskip]
      by_cases hid : hd.id = rid
      · have hmem : rid ∈ insertSeen hd.id seen := hid ▸ mem_insertSeen_self hd.id seen
        have hzero : countFor rid (notifyRows c dec rest (insertSeen hd.id seen)).1 = 0 :=
          notifyRows_countFor_of_mem c dec rest (insertSeen hd.id seen) rid hmem
        constructor
        · simp only [countFor_append, hzero]
          simpa using countFor_rowNotify_le rid c dec hd
        · intro _
          exact notifyRows_seen_subset c dec rest (insertSeen hd.id seen) rid hmem
      · have hzero : countFor rid (rowNotify c dec hd).toList = 0 :=
          countFor_rowNotify_ne c dec hd hid
        simp only [countFor_append, hzero, Nat.zero_add]
        exact ih (insertSeen hd.id seen) rid

/-- One dispatcher tick never removes ids from the seen set. -/
theorem notify_seen_subset (k : String) (file : AdminFileState)
    (fetch : Except String PendingData) (dec : String → Bool)
    (seen : List String) (a : String) (ha : a ∈ seen) :
    a ∈ (notify_pending_topups k file fetch dec seen).2 := by
  unfold notify_pending_topups
  split
  · exact ha
  split
  · exact ha
  split
  · exact ha
  split
  · exact ha
  · exact notifyRows_seen_subset _ dec _ seen a ha

/-- One dispatcher tick emits nothing for an already-seen id. -/
theorem notify_countFor_of_mem (k : String) (file : AdminFileState)
    (fetch : Except String PendingData) (dec : String → Bool)
    (seen : List String) (rid : String) (hrid : rid ∈ seen) :
    countFor rid (notify_pending_topups k file fetch dec seen).1 = 0 := by
  unfold notify_pending_topups
  split
  · rfl
  split
  · rfl
  split
  · rfl
  split
  · rfl
  · exact notifyRows_countFor_of_mem _ dec _ seen rid hrid

/-- One dispatcher tick renders `rid` at most once, and when it does the id
is in the tick's final seen set. -/
theorem notify_countFor_le_one (k : String) (file : AdminFileState)
    (fetch : Except String PendingData) (dec : String → Bool)
    (seen : List String) (rid : String) :
    countFor rid (notify_pending_topups k file fetch dec seen).1 ≤ 1
      ∧ (1 ≤ countFor rid (notify_pending_topups k file fetch dec seen).1 →
          rid ∈ (notify_pending_topups k file fetch dec seen).2) := by
  unfold notify_pending_topups
  split
  · exact ⟨by simp [countFor], fun h => by simp [countFor] at h⟩
  split
  · exact ⟨by simp [countFor], fun h => by simp [countFor] at h⟩
  split
  · exact ⟨by simp [countFor], fun h => by simp [countFor] at h⟩
  split
  · exact ⟨by simp [countFor], fun h => by simp [countFor] at h⟩
  · exact notifyRows_countFor_le_one _ dec _ seen rid

/-- Across any run of ticks, the seen set only grows. -/
theorem runTicks_seen_subset (k : String) (dec : String → Bool)
    (ticks : List (AdminFileState × Except String PendingData)) :
    ∀ (seen : List String) (a : String), a ∈ seen →
      a ∈ (runTicks k dec ticks seen).2 := by
  induction ticks with
  | nil => intro seen a ha; exact ha
  | cons t ts ih =>
    intro seen a ha
    exact ih _ a (notify_seen_subset k t.1 t.2 dec seen a ha)

/-- Across any run of ticks, an id seen at the start is never re-rendered. -/
theorem runTicks_countFor_of_mem (k : String) (dec : String → Bool)
    (ticks : List (AdminFileState × Except String PendingData)) :
    ∀ (seen : List String) (rid : String), rid ∈ seen →
      countFor rid (runTicks k dec ticks seen).1 = 0 := by
  induction ticks with
  | nil => intro seen rid _; rfl
  | cons t ts ih =>
    intro seen rid hrid
    rw [runTicks]
    simp only [countFor_append]
    rw [notify_countFor_of_mem k t.1 t.2 dec seen rid hrid,
      ih _ rid (notify_seen_subset k t.1 t.2 dec seen rid hrid)]

/-- Across an entire process lifetime of ticks, any request id is rendered
at most once by the Dispatcher. -/
theorem runTicks_countFor_le_one (k : String) (dec : String → Bool)
    (ticks : List (AdminFileState × Except String PendingData)) :
    ∀ (seen : List String) (rid : String),
      countFor rid (runTicks k dec ticks seen).1 ≤ 1 := by
  induction ticks with
  | nil => intro seen rid; simp [runTicks, countFor]
  | cons t ts ih =>
    intro seen rid
    rw [runTicks]
    simp only [countFor_append]
    rcases Nat.eq_zero_or_pos (countFor rid (notify_pending_topups k t.1 t.2 dec seen).1)
      with hz | hp
    · rw [hz]
      simpa using ih _ rid
    · have hmem := (notify_countFor_le_one k t.1 t.2 dec seen rid).2 hp
      rw [runTicks_countFor_of_mem k dec ts _ rid hmem]
      simpa using (notify_countFor_le_one k t.1 t.2 dec seen rid).1

/-- A second tick over the same admin file and fetch result sends nothing:
everything the first tick rendered is in the seen set it returns. -/
theorem notify_second_tick (k : String) (file : AdminFileState)
    (fetch : Except String PendingData) (dec : String → Bool)
    (seen : List String) :
    (notify_pending_topups k file fetch dec
      (notify_pending_topups k file fetch dec seen).2).1 = [] := by
  by_cases hk : k = ""
  · simp [notify_pending_topups, hk]
  · cases hload : load_admin_chat_id file with
    | none => simp [notify_pending_topups, hk, hload]
    | some c =>
      cases fetch with
      | error e => simp [notify_pending_topups, hk, hload]
      | ok data =>
        by_cases hok : data.ok = false
        · simp [notify_pending_topups, hk, hload, hok]
        · simp only [notify_pending_topups, if_neg hk, hload, if_neg hok]
          rw [notifyRows_all_seen c dec data.rows _
            (fun row hr => notifyRows_covers c dec data.rows seen row hr)]

/-- Claim C1: the Dispatcher delivers at most one unsolicited notification
per request id per process lifetime — a row whose id is already seen is
skipped by the tick's row loop; a processed non-empty id is in the seen set
afterwards; a second tick over the same fetch result sends nothing; and over
any sequence of ticks a given id is rendered at most once. -/
theorem dispatcher_at_most_once (k : String) (file : AdminFileState)
    (fetch : Except String PendingData) (dec : String → Bool)
    (seen : List String) (c : Int) (row : Row) (rest : List Row) (rid : String)
    (ticks : List (AdminFileState × Except String PendingData)) :
    (row.id ∈ seen → notifyRows c dec (row :: rest) seen = notifyRows c dec rest seen)
      ∧ (row.id ≠ "" → row.id ∈ (notifyRows c dec (row :: rest) seen).2)
      ∧ (notify_pending_topups k file fetch dec
          (notify_pending_topups k file fetch dec seen).2).1 = []
      ∧ countFor rid (runTicks k dec ticks seen).1 ≤ 1 := by
  refine ⟨fun h => ?_, fun h => ?_, notify_second_tick k file fetch dec seen,
    runTicks_countFor_le_one k dec ticks seen rid⟩
  · rw [notifyRows, if_pos (Or.inr h)]
  · rcases notifyRows_covers c dec (row :: rest) seen row
        (List.mem_cons_self row rest) with h0 | hmem
    · exact absurd h0 h
    · exact hmem

/-- Claim C1 witness: with id `r1` already seen, the row is skipped, stays
seen, a second tick is silent, and the lifetime count is bounded. -/
theorem dispatcher_at_most_once_witness :
    (notifyRows 1 (fun _ => true)
        [(⟨"r1", "bob", 100, 5000, "p", 0, ""⟩ : Row)] ["r1"]
      = notifyRows 1 (fun _ => true) [] ["r1"])
      ∧ ("r1" : String) ∈ (notifyRows 1 (fun _ => true)
          [(⟨"r1", "bob", 100, 5000, "p", 0, ""⟩ : Row)] ["r1"]).2
      ∧ (notify_pending_topups ("k") AdminFileState.absent (Except.error (""))
          (fun _ => true)
          ((notify_pending_topups ("k") AdminFileState.absent (Except.error (""))
            (fun _ => true) ["r1"]).2)).1 = []
      ∧ countFor ("r1") (runTicks ("k") (fun _ => true) [] ["r1"]).1 ≤ 1 := by
  have h := dispatcher_at_most_once ("k") AdminFileState.absent (Except.error (""))
    (fun _ => true) ["r1"] 1 (⟨"r1", "bob", 100, 5000, "p", 0, ""⟩ : Row) [] ("r1") []
  exact ⟨h.1 (by decide), h.2.1 (by decide), h.2.2.1, h.2.2.2⟩

/-- Claim C4 counterexample: for a pending row whose receipt is a data-image
URI with an undecodable payload, the Dispatcher sends nothing at all for the
row (it keeps it marked seen and moves on), while the On-Demand Lister does
fall back to the text message — so the claimed text fallback does not hold
for the Dispatcher. -/
theorem dispatcher_bad_image_drops :
    (notify_pending_topups ("k") (AdminFileState.record 1)
        (Except.ok ⟨true, none,
          [(⟨"r1", "bob", 100, 5000, "p", 0, "data:image/png;base64,xyz"⟩ : Row)]⟩)
        (fun _ => false) []).1 = []
      ∧ (notify_pending_topups ("k") (AdminFileState.record 1)
          (Except.ok ⟨true, none,
            [(⟨"r1", "bob", 100, 5000, "p", 0, "data:image/png;base64,xyz"⟩ : Row)]⟩)
          (fun _ => false) []).2 = ["r1"]
      ∧ (topups_cmd ("k") (some ("shtursunov7"))
          (Except.ok ⟨true, none,
            [(⟨"r1", "bob", 100, 5000, "p", 0, "data:image/png;base64,xyz"⟩ : Row)]⟩)
          (fun _ => false) []).1
        = [ListerEffect.replyText
            (renderCaption (⟨"r1", "bob", 100, 5000, "p", 0,
              "data:image/png;base64,xyz"⟩ : Row))
            (some (topupKeyboard ("r1")))]
      ∧ ([] : List NotifyEffect)
          ≠ [NotifyEffect.sendMessage 1
              (renderCaption (⟨"r1", "bob", 100, 5000, "p", 0,
                "data:image/png;base64,xyz"⟩ : Row))
              (topupKeyboard ("r1"))] := by
  refine ⟨by decide, by decide, by decide, by decide⟩

/-- Claim C4 (amended): for a row whose receipt starts with a data-image URI
but whose base64 payload is undecodable, the On-Demand Lister falls back to
the text-only reply with the same caption and keyboard, whereas the
Notification Dispatcher drops the notification for that row entirely —
emitting nothing, keeping the id marked seen, and continuing with the
remaining rows. -/
theorem bad_image_fallback_amended (c : Int) (dec : String → Bool)
    (seen : List String) (row : Row) (rest : List Row)
    (h1 : pyStarts row.receiptImage ("data:image/") = true)
    (h2 : pyHasChar ',' row.receiptImage = true)
    (h3 : dec (afterFirstComma row.receiptImage) = false) :
    rowEffect dec row
        = ListerEffect.replyText (renderCaption row) (some (topupKeyboard row.id))
      ∧ (listRows dec (row :: rest) seen).1
          = ListerEffect.replyText (renderCaption row) (some (topupKeyboard row.id))
              :: (listRows dec rest (insertSeen row.id seen)).1
      ∧ rowNotify c dec row = none
      ∧ (¬(row.id = "" ∨ row.id ∈ seen) →
          notifyRows c dec (row :: rest) seen
            = notifyRows c dec rest (insertSeen row.id seen)) := by
  have heff : rowEffect dec row
      = ListerEffect.replyText (renderCaption row) (some (topupKeyboard row.id)) := by
    simp [rowEffect, h1, h2, h3]
  have hnone : rowNotify c dec row = none := by
    simp [rowNotify, h1, h2, h3]
  refine ⟨heff, ?_, hnone, fun hskip => ?_⟩
  · rw [listRows, heff]
  · rw [notifyRows, if_neg hskip, hnone]
    rfl

/-- Claim C4 witness: concrete undecodable payload `xyz` (its length is 3,
which Python's base64 decoder rejects as incorrectly padded). -/
theorem bad_image_fallback_amended_witness :
    rowEffect (fun _ => false)
        (⟨"r1", "bob", 100, 5000, "p", 0, "data:image/png;base64,xyz"⟩ : Row)
      = ListerEffect.replyText
          (renderCaption (⟨"r1", "bob", 100, 5000, "p", 0,
            "data:image/png;base64,xyz"⟩ : Row))
          (some (topupKeyboard ("r1")))
      ∧ rowNotify 1 (fun _ => false)
          (⟨"r1", "bob", 100, 5000, "p", 0, "data:image/png;base64,xyz"⟩ : Row)
        = none
      ∧ notifyRows 1 (fun _ => false)
          [(⟨"r1", "bob", 100, 5000, "p", 0, "data:image/png;base64,xyz"⟩ : Row)] []
        = notifyRows 1 (fun _ => false) [] (insertSeen ("r1") []) := by
  have h := bad_image_fallback_amended 1 (fun _ => false) []
    (⟨"r1", "bob", 100, 5000, "p", 0, "data:image/png;base64,xyz"⟩ : Row) []
    (by decide) (by decide) rfl
  exact ⟨h.1, h.2.2.1, h.2.2.2 (by decide)⟩

/-- The Lister's replies are exactly the row renderings, in fetch order,
independent of the seen set. -/
theorem listRows_fst (dec : String → Bool) (rows : List Row) :
    ∀ (seen : List String), (listRows dec rows seen).1 = rows.map (rowEffect dec) := by
  induction rows with
  | nil => intro seen; rfl
  | cons hd rest ih =>
    intro seen
    rw [listRows, List.map_cons, ih (insertSeen hd.id seen)]

/-- The Lister's row loop never removes ids from the seen set. -/
theorem listRows_seen_subset (dec : String → Bool) (rows : List Row) :
    ∀ (seen : List String) (a : String), a ∈ seen →
      a ∈ (listRows dec rows seen).2 := by
  induction rows with
  | nil => intro seen a ha; exact ha
  | cons hd rest ih =>
    intro seen a ha
    rw [listRows]
    exact ih (insertSeen hd.id seen) a (mem_insertSeen_of_mem ha)

/-- Every listed row's id is in the Lister's final seen set. -/
theorem listRows_marks_seen (dec : String → Bool) (rows : List Row) :
    ∀ (seen : List String) (row : Row), row ∈ rows →
      row.id ∈ (listRows dec rows seen).2 := by
  induction rows with
  | nil => intro seen row h; cases h
  | cons hd rest ih =>
    intro seen row h
    rcases List.mem_cons.mp h with h | h
    · subst h
      rw [listRows]
      exact listRows_seen_subset dec rest (insertSeen row.id seen) row.id
        (mem_insertSeen_self row.id seen)
    · rw [listRows]
      exact ih (insertSeen hd.id seen) row h

/-- Claim C7: an authorized Lister call with a successful fetch renders
every pending row exactly once, in order, regardless of the prior seen set
(the reply list is the map of the row rendering over the fetched rows),
marks every row id seen, and replies exactly once with the no-pending text
when the row set is empty. -/
theorem topups_cmd_renders_all (k : String) (u : Option String)
    (data : PendingData) (dec : String → Bool) (seen : List String)
    (hk : k ≠ "") (hu : pyNorm u = BOT_ADMIN_USERNAME) (hok : data.ok = true) :
    (data.rows = [] →
      topups_cmd k u (Except.ok data) dec seen
        = ([ListerEffect.replyText ("Pending chek yo\x27q.") none], seen))
      ∧ (data.rows ≠ [] →
          (topups_cmd k u (Except.ok data) dec seen).1
              = data.rows.map (rowEffect dec)
            ∧ ∀ row ∈ data.rows,
                row.id ∈ (topups_cmd k u (Except.ok data) dec seen).2) := by
  have hbase : topups_cmd k u (Except.ok data) dec seen
      = if data.rows.length = 0 then
          ([ListerEffect.replyText ("Pending chek yo\x27q.") none], seen)
        else listRows dec data.rows seen := by
    simp [topups_cmd, if_neg hk, if_neg (not_not_intro hu), hok]
  constructor
  · intro hr
    rw [hbase, if_pos (by rw [hr]; rfl)]
  · intro hr
    have hlen : ¬data.rows.length = 0 := by
      simpa [List.length_eq_zero] using hr
    rw [hbase, if_neg hlen]
    exact ⟨listRows_fst dec data.rows seen,
      fun row h => listRows_marks_seen dec data.rows seen row h⟩

/-- Claim C7 witness: one already-seen row is still rendered and stays
seen; an empty fetch yields the single no-pending reply. -/
theorem topups_cmd_renders_all_witness :
    topups_cmd ("k") (some ("shtursunov7")) (Except.ok ⟨true, none, []⟩)
        (fun _ => true) []
      = ([ListerEffect.replyText ("Pending chek yo\x27q.") none], [])
      ∧ (topups_cmd ("k") (some ("shtursunov7"))
          (Except.ok ⟨true, none,
            [(⟨"r1", "bob", 100, 5000, "p", 0, ""⟩ : Row)]⟩)
          (fun _ => true) ["r1"]).1
        = [(⟨"r1", "bob", 100, 5000, "p", 0, ""⟩ : Row)].map
            (rowEffect (fun _ => true))
      ∧ ("r1" : String) ∈ (topups_cmd ("k") (some ("shtursunov7"))
          (Except.ok ⟨true, none,
            [(⟨"r1", "bob", 100, 5000, "p", 0, ""⟩ : Row)]⟩)
          (fun _ => true) ["r1"]).2 := by
  have h0 := topups_cmd_renders_all ("k") (some ("shtursunov7"))
    ⟨true, none, []⟩ (fun _ => true) [] (by decide) (by decide) rfl
  have h1 := topups_cmd_renders_all ("k") (some ("shtursunov7"))
    ⟨true, none, [(⟨"r1", "bob", 100, 5000, "p", 0, ""⟩ : Row)]⟩
    (fun _ => true) ["r1"] (by decide) (by decide) rfl
  exact ⟨h0.1 rfl, (h1.2 (by decide)).1,
    (h1.2 (by decide)).2 (⟨"r1", "bob", 100, 5000, "p", 0, ""⟩ : Row) (by decide)⟩
